import Mathlib

/-!
Verification of the real-time hub specification of cozy-stack.

The repository snapshot contains the reference behavioural test of the
real-time subsystem (web/realtime/realtime_test.go) but not the hub and
dispatcher implementation itself (pkg/realtime, the WebSocket handler of
web/realtime).  The definitions below are therefore modelled from the
specification (spec.md sections 3 to 7), kept consistent with the observable
behaviour recorded by realtime_test.go.
-/

namespace Realtime

/-- Modelled from the spec: the four event kinds of section 3
(`CREATED|UPDATED|DELETED|NOTIFIED`); pkg/realtime is not in the snapshot. -/
inductive EventKind
  | created
  | updated
  | deleted
  | notified
deriving DecidableEq, Repr

/-- Modelled from the spec: the wire name of an event kind as it appears in
the outbound `"event"` field of section 6. -/
def EventKind.name : EventKind → String
  | .created => "CREATED"
  | .updated => "UPDATED"
  | .deleted => "DELETED"
  | .notified => "NOTIFIED"

/-- Modelled from the spec: a publishable entity, the section 9 capability
interface getID / getDocType / serialize; the payload stays opaque (a
serialized string). -/
structure Doc where
  docID : String
  doctype : String
  payload : String
deriving DecidableEq, Repr

/-- Modelled from the spec: an Event of section 3, `{kind, doctype,
documentID, document, oldDocument}`, immutable once constructed. -/
structure Event where
  kind : EventKind
  doctype : String
  docID : String
  doc : String
  oldDoc : Option String
deriving DecidableEq, Repr

/-- Modelled from the spec: an event built by a publish call from a kind, a
document and an optional old document. -/
def mkEvent (k : EventKind) (d : Doc) (old : Option Doc) : Event :=
  ⟨k, d.doctype, d.docID, d.payload, old.map Doc.payload⟩

/-- Modelled from the spec: one entry of the Topic Registry key space of
section 3: a subscriber (identified by a number) holding either the wildcard
topic (`id = none`) or the specific-document topic (`id = some i`) of a
doctype inside a tenant. -/
structure Subscription where
  tenant : String
  sub : Nat
  doctype : String
  id : Option String
deriving DecidableEq, Repr

/-- Modelled from the spec: the Topic Registry of section 4.1, with set
semantics obtained by idempotent insertion. -/
abbrev Registry : Type := List Subscription

/-- Modelled from the spec: `subscribe(tenant, subscriber, doctype,
optionalID)` of section 4.1 — idempotent addition to the wildcard set when
the id is empty, else to the per-id set. -/
def subscribe (R : Registry) (tenant : String) (s : Nat) (doctype : String)
    (oid : Option String) : Registry :=
  if (Subscription.mk tenant s doctype oid) ∈ R then R
  else Subscription.mk tenant s doctype oid :: R

/-- Modelled from the spec: `unsubscribe(tenant, subscriber, doctype,
optionalID)` of section 4.1 — idempotent removal, a no-op on a non-member. -/
def unsubscribe (R : Registry) (tenant : String) (s : Nat) (doctype : String)
    (oid : Option String) : Registry :=
  List.filter (fun e => e ≠ Subscription.mk tenant s doctype oid) R

/-- Modelled from the spec: `unsubscribeAll(subscriber)` of section 4.1,
the disconnect cleanup that purges a subscriber from every topic. -/
def unsubscribeAll (R : Registry) (s : Nat) : Registry :=
  List.filter (fun e => e.sub ≠ s) R

/-- Modelled from the spec: whether a registry entry makes its subscriber
interested in a (tenant, doctype, documentID) publish — same tenant, same
doctype, and wildcard or matching document id. -/
def Subscription.matchesB (e : Subscription) (tenant doctype docID : String) : Bool :=
  e.tenant == tenant && e.doctype == doctype && (e.id == none || e.id == some docID)

/-- Modelled from the spec: `matches(tenant, doctype, documentID)` of
section 4.1 — the union of the wildcard-doctype set and the specific-id set,
de-duplicated. -/
def matchesList (R : Registry) (tenant doctype docID : String) : List Nat :=
  (List.map Subscription.sub
    (List.filter (fun e => e.matchesB tenant doctype docID) R)).dedup

theorem mem_matchesList {R : Registry} {t D x : String} {s : Nat} :
    s ∈ matchesList R t D x ↔
      ∃ e, e ∈ R ∧ e.sub = s ∧ e.tenant = t ∧ e.doctype = D ∧
        (e.id = none ∨ e.id = some x) := by
  unfold matchesList
  rw [List.mem_dedup]
  constructor
  · intro h
    rcases List.mem_map.mp h with ⟨e, he, hsub⟩
    rcases List.mem_filter.mp he with ⟨heR, hB⟩
    unfold Subscription.matchesB at hB
    simp only [Bool.and_eq_true, Bool.or_eq_true, beq_iff_eq] at hB
    exact ⟨e, heR, hsub, hB.1.1, hB.1.2, hB.2⟩
  · rintro ⟨e, heR, hsub, ht, hD, hid⟩
    refine List.mem_map.mpr ⟨e, List.mem_filter.mpr ⟨heR, ?_⟩, hsub⟩
    unfold Subscription.matchesB
    simp only [Bool.and_eq_true, Bool.or_eq_true, beq_iff_eq]
    exact ⟨⟨ht, hD⟩, hid⟩

theorem nodup_matchesList (R : Registry) (t D x : String) :
    (matchesList R t D x).Nodup :=
  List.nodup_dedup _

/-- Modelled from the spec: the outbound document-event message of
section 6, `{"event": <kind>, "payload": {"type": <doctype>, "id": <doc-id>,
"doc": <payload JSON>}}`. -/
structure Delivered where
  event : String
  payloadType : String
  payloadID : String
  doc : String
deriving DecidableEq, Repr

/-- Modelled from the spec: the serialized event enqueued onto the outbound
queue of a matching subscriber — kind name, doctype, document id and the
opaque payload, carried verbatim. -/
def mkDelivered (e : Event) : Delivered :=
  ⟨e.kind.name, e.doctype, e.docID, e.doc⟩

/-- Modelled from the spec: the Hub-owned shared state of sections 4.2 and
5 — the Topic Registry plus one outbound FIFO queue per subscriber. -/
structure HubState where
  registry : Registry
  queue : Nat → List Delivered

/-- Modelled from the spec: `publish(tenant, eventKind, document,
oldDocument)` of section 4.2 — looks up the matching subscribers via the
Topic Registry and enqueues the serialized event onto the outbound queue of each
matching subscriber. -/
def publish (st : HubState) (tenant : String) (k : EventKind) (d : Doc)
    (old : Option Doc) : HubState :=
  { registry := st.registry
    queue := fun s =>
      if s ∈ matchesList st.registry tenant (mkEvent k d old).doctype (mkEvent k d old).docID
      then st.queue s ++ [mkDelivered (mkEvent k d old)]
      else st.queue s }

/-- Modelled from the spec: the per-subscriber dispatch loop of section 4.3
draining the outbound queue in FIFO order and writing each event to the
transport; the value is the transport-observed sequence. -/
def drain : List Delivered → List Delivered
  | [] => []
  | d :: q => d :: drain q

theorem drain_eq (q : List Delivered) : drain q = q := by
  induction q with
  | nil => rfl
  | cons d q ih => unfold drain; rw [ih]

theorem publish_registry (st : HubState) (tenant : String) (k : EventKind)
    (d : Doc) (old : Option Doc) :
    (publish st tenant k d old).registry = st.registry := rfl

theorem publish_queue_mem {st : HubState} {tenant : String} {k : EventKind}
    {d : Doc} {old : Option Doc} {s : Nat}
    (h : s ∈ matchesList st.registry tenant d.doctype d.docID) :
    (publish st tenant k d old).queue s = st.queue s ++ [mkDelivered (mkEvent k d old)] := by
  unfold publish
  simp only [mkEvent]
  rw [if_pos h]

theorem publish_queue_not_mem {st : HubState} {tenant : String} {k : EventKind}
    {d : Doc} {old : Option Doc} {s : Nat}
    (h : s ∉ matchesList st.registry tenant d.doctype d.docID) :
    (publish st tenant k d old).queue s = st.queue s := by
  unfold publish
  simp only [mkEvent]
  rw [if_neg h]

/-- Modelled from the spec: the permission set resolved by the external
collaborator of section 6; `readable` backs `MayRead(doctype)`, `writable`
backs the write-like check of the HTTP notify side-channel. -/
structure PermSet where
  readable : List String
  writable : List String
deriving DecidableEq, Repr

/-- Modelled from the spec: `permissionSet.MayRead(doctype)` of section 6. -/
def PermSet.mayRead (p : PermSet) (doctype : String) : Bool :=
  p.readable.contains doctype

/-- Modelled from the spec: the write-like permission check used by the
HTTP notify side-channel of section 6. -/
def PermSet.mayWrite (p : PermSet) (doctype : String) : Bool :=
  p.writable.contains doctype

/-- Modelled from the spec: the Subscriber state machine states of
section 4.3, `Unauthenticated → Authenticated → Closed`; an authenticated
subscriber records the resolved tenant and permission set. -/
inductive ConnState
  | unauthenticated
  | authenticated (tenant : String) (perms : PermSet)
  | closed
deriving DecidableEq, Repr

/-- Modelled from the spec: an inbound control message of section 6
(AUTH / SUBSCRIBE / UNSUBSCRIBE / any other method value). -/
inductive Message
  | auth (credential : String)
  | sub (doctype : String) (id : Option String)
  | unsub (doctype : String) (id : Option String)
  | other (method : String)
deriving DecidableEq, Repr

/-- Modelled from the spec: the method name carried by a control message,
used in the 405 error title of section 6. -/
def Message.method : Message → String
  | .auth _ => "AUTH"
  | .sub _ _ => "SUBSCRIBE"
  | .unsub _ _ => "UNSUBSCRIBE"
  | .other m => m

/-- Modelled from the spec: the structured error payload of sections 6
and 7, `{"status": ..., "code": ..., "title": ...}`. -/
structure ErrorPayload where
  status : String
  code : String
  title : String
deriving DecidableEq, Repr

/-- Modelled from the spec: a message the server sends on a connection —
either a structured error event or a delivered document event. -/
inductive OutMsg
  | err (p : ErrorPayload)
  | doc (d : Delivered)
deriving DecidableEq, Repr

/-- Modelled from the spec: the 405 error of section 6 for any unsupported
method value. -/
def methodNotAllowed (m : String) : ErrorPayload :=
  ⟨"405 Method Not Allowed", "method not allowed", "The " ++ m ++ " method is not supported"⟩

/-- Modelled from the spec: the 401 authentication-failure error of
section 6. -/
def unauthorizedErr : ErrorPayload :=
  ⟨"401 Unauthorized", "unauthorized", "The authentication has failed"⟩

/-- The apostrophe character, kept out of string literals. -/
def apos : String :=
  (Char.ofNat 39).toString

/-- Modelled from the spec: the 403 forbidden-subscription error of
section 6, naming the doctype; its title reads: The application can not
(with an apostrophe contraction) subscribe to the doctype. -/
def forbiddenErr (doctype : String) : ErrorPayload :=
  ⟨"403 Forbidden", "forbidden", "The application can" ++ apos ++ "t subscribe to " ++ doctype⟩

/-- Modelled from the spec: one per-connection session of section 3 — the
subscriber identity, the state-machine state, and the own topic set of the subscriber kept for disconnect cleanup. -/
structure Session where
  sid : Nat
  conn : ConnState
  topics : List (String × Option String)
deriving DecidableEq, Repr

/-- Modelled from the spec: idempotent addition to the own topic set of the Subscriber on an allowed SUBSCRIBE (section 4.3). -/
def addTopic (ts : List (String × Option String)) (D : String)
    (oid : Option String) : List (String × Option String) :=
  if (D, oid) ∈ ts then ts else (D, oid) :: ts

/-- Modelled from the spec: removal from the own topic set of the Subscriber on
UNSUBSCRIBE (section 4.3). -/
def removeTopic (ts : List (String × Option String)) (D : String)
    (oid : Option String) : List (String × Option String) :=
  List.filter (fun p => p ≠ (D, oid)) ts

/-- Modelled from the spec: the Dynamic Message Dispatcher of sections 4.3
and 6 driving the Subscriber state machine.  While Unauthenticated only
AUTH is accepted and any other method yields the 405 error without a state
change; AUTH resolves the credential through the external permission
collaborator; while Authenticated, SUBSCRIBE is checked against
`mayRead` and UNSUBSCRIBE unconditionally succeeds.  Successful control
messages produce no output. -/
def handleMessage (resolve : String → Option (String × PermSet)) (R : Registry)
    (sess : Session) (m : Message) : Registry × Session × List OutMsg :=
  match sess.conn with
  | .closed => (R, sess, [])
  | .unauthenticated =>
    match m with
    | .auth cred =>
      match resolve cred with
      | some (tenant, perms) => (R, { sess with conn := .authenticated tenant perms }, [])
      | none => (R, sess, [.err unauthorizedErr])
    | m => (R, sess, [.err (methodNotAllowed m.method)])
  | .authenticated tenant perms =>
    match m with
    | .sub D oid =>
      if perms.mayRead D then
        (subscribe R tenant sess.sid D oid,
         { sess with topics := addTopic sess.topics D oid }, [])
      else (R, sess, [.err (forbiddenErr D)])
    | .unsub D oid =>
      (unsubscribe R tenant sess.sid D oid,
       { sess with topics := removeTopic sess.topics D oid }, [])
    | m => (R, sess, [.err (methodNotAllowed m.method)])

/-- Modelled from the spec: a sequence of inbound control messages driven
through the dispatcher, concatenating the replies of the server in order. -/
def runMessages (resolve : String → Option (String × PermSet)) (R : Registry)
    (sess : Session) : List Message → Registry × Session × List OutMsg
  | [] => (R, sess, [])
  | m :: ms =>
    let step := handleMessage resolve R sess m
    let rest := runMessages resolve step.1 step.2.1 ms
    (rest.1, rest.2.1, step.2.2 ++ rest.2.2)

/-- Modelled from the spec: the HTTP notify side-channel of sections 4.4
and 6 — `POST /<notify-prefix>/<doctype>/<id>` with a JSON body and a
bearer credential validates the write-like permission for the doctype,
synthesizes a NOTIFIED event whose payload is the caller-supplied body
verbatim, publishes it through the same Hub.publish path, and answers
204 No Content on success, 401 or 403 on auth or permission failure. -/
def notify (resolve : String → Option (String × PermSet)) (st : HubState)
    (bearer doctype docID body : String) : Nat × HubState :=
  match resolve bearer with
  | none => (401, st)
  | some (tenant, perms) =>
    if perms.mayWrite doctype then
      (204, publish st tenant .notified ⟨docID, doctype, body⟩ none)
    else (403, st)

theorem mem_unsubscribe {R : Registry} {t : String} {s : Nat} {D : String}
    {oid : Option String} {e : Subscription} :
    e ∈ unsubscribe R t s D oid ↔ e ∈ R ∧ e ≠ Subscription.mk t s D oid := by
  unfold unsubscribe
  rw [List.mem_filter]
  simp only [ne_eq, decide_not, Bool.not_eq_true', decide_eq_false_iff_not]

theorem mem_subscribe_self (R : Registry) (t : String) (s : Nat) (D : String)
    (oid : Option String) :
    Subscription.mk t s D oid ∈ subscribe R t s D oid := by
  unfold subscribe
  by_cases h : Subscription.mk t s D oid ∈ R
  · rw [if_pos h]; exact h
  · rw [if_neg h]; exact List.mem_cons_self _ _

/-- Test fixture: subscriber 1 of the first tenant holds the wildcard topic
for foos, the specific topic (foos, foo-one) and the specific topic
(bars, bar-one); subscriber 2 of the second tenant holds the wildcard topic
for foos. -/
def regW : Registry :=
  [⟨"alice.example", 1, "io.cozy.foos", none⟩,
   ⟨"alice.example", 1, "io.cozy.foos", some ("foo-one")⟩,
   ⟨"alice.example", 1, "io.cozy.bars", some ("bar-one")⟩,
   ⟨"bob.example", 2, "io.cozy.foos", none⟩]

/-- Test fixture: hub state over `regW` with all outbound queues empty. -/
def stW : HubState :=
  ⟨regW, fun _ => []⟩

/-- Test fixture: a foos document. -/
def docFoo : Doc :=
  ⟨"foo-one", "io.cozy.foos", "pfoo"⟩

/-- Test fixture: a second foos document. -/
def docFooTwo : Doc :=
  ⟨"foo-two", "io.cozy.foos", "pfoo2"⟩

/-- Test fixture: the bars document bar-one. -/
def docBarOne : Doc :=
  ⟨"bar-one", "io.cozy.bars", "pbar1"⟩

/-- C1: a subscriber holding the wildcard subscription for doctype D
receives every event for any document of type D, the delivered kind, payload
type and payload id being the published event kind, doctype and document id;
a subscriber holding only the specific subscription (D, i) for that doctype
receives exactly the events whose document id equals i and nothing for any
other document of type D. -/
theorem wildcard_and_specific_delivery (st : HubState) (t D i : String)
    (s : Nat) (k : EventKind) (d : Doc) (old : Option Doc)
    (hD : d.doctype = D) :
    (Subscription.mk t s D none ∈ st.registry →
      s ∈ matchesList st.registry t D d.docID ∧
      (publish st t k d old).queue s =
        st.queue s ++ [Delivered.mk k.name D d.docID d.payload]) ∧
    ((∀ e ∈ st.registry, e.sub = s → e.tenant = t → e.doctype = D →
        e.id = some i) →
      Subscription.mk t s D (some i) ∈ st.registry →
      (s ∈ matchesList st.registry t D d.docID ↔ d.docID = i)) := by
  subst hD
  constructor
  · intro hw
    have hm : s ∈ matchesList st.registry t d.doctype d.docID :=
      mem_matchesList.mpr
        ⟨Subscription.mk t s d.doctype none, hw, rfl, rfl, rfl, Or.inl rfl⟩
    exact ⟨hm, publish_queue_mem hm⟩
  · intro honly hs
    constructor
    · intro hm
      rcases mem_matchesList.mp hm with ⟨e, heR, hsub, ht, hdt, hid⟩
      have hei := honly e heR hsub ht hdt
      rcases hid with h0 | h1
      · rw [hei] at h0; cases h0
      · rw [hei] at h1; exact (Option.some.inj h1).symm
    · intro hx
      exact mem_matchesList.mpr
        ⟨Subscription.mk t s d.doctype (some i), hs, rfl, rfl, rfl,
         Or.inr (by rw [hx])⟩

theorem wildcard_and_specific_delivery_witness :
    docBarOne.doctype = "io.cozy.bars" ∧
    ((Subscription.mk ("alice.example") 1 ("io.cozy.bars") none ∈ stW.registry →
        1 ∈ matchesList stW.registry ("alice.example") ("io.cozy.bars") docBarOne.docID ∧
        (publish stW ("alice.example") EventKind.created docBarOne none).queue 1 =
          stW.queue 1 ++
            [Delivered.mk EventKind.created.name ("io.cozy.bars") docBarOne.docID docBarOne.payload]) ∧
     ((∀ e ∈ stW.registry, e.sub = 1 → e.tenant = "alice.example" →
          e.doctype = "io.cozy.bars" → e.id = some ("bar-one")) →
        Subscription.mk ("alice.example") 1 ("io.cozy.bars") (some ("bar-one")) ∈ stW.registry →
        (1 ∈ matchesList stW.registry ("alice.example") ("io.cozy.bars") docBarOne.docID ↔
          docBarOne.docID = "bar-one"))) :=
  ⟨rfl, wildcard_and_specific_delivery stW ("alice.example") ("io.cozy.bars")
    ("bar-one") 1 EventKind.created docBarOne none rfl⟩

/-- C2: a subscriber holding both the wildcard subscription for doctype D
and the specific subscription (D, i) appears exactly once in the
de-duplicated matches result, and one publish of a matching document
enqueues exactly one event onto its outbound queue, not two. -/
theorem no_duplicate_delivery (st : HubState) (t D i : String) (s : Nat)
    (k : EventKind) (d : Doc) (old : Option Doc)
    (hw : Subscription.mk t s D none ∈ st.registry)
    (hs : Subscription.mk t s D (some i) ∈ st.registry)
    (hD : d.doctype = D) (hi : d.docID = i) :
    (matchesList st.registry t D i).count s = 1 ∧
    (publish st t k d old).queue s =
      st.queue s ++ [mkDelivered (mkEvent k d old)] := by
  subst hD; subst hi
  have hm : s ∈ matchesList st.registry t d.doctype d.docID :=
    mem_matchesList.mpr
      ⟨Subscription.mk t s d.doctype none, hw, rfl, rfl, rfl, Or.inl rfl⟩
  exact ⟨List.count_eq_one_of_mem (nodup_matchesList _ _ _ _) hm,
         publish_queue_mem hm⟩

theorem no_duplicate_delivery_witness :
    Subscription.mk ("alice.example") 1 ("io.cozy.foos") none ∈ stW.registry ∧
    Subscription.mk ("alice.example") 1 ("io.cozy.foos") (some ("foo-one")) ∈ stW.registry ∧
    docFoo.doctype = "io.cozy.foos" ∧ docFoo.docID = "foo-one" ∧
    ((matchesList stW.registry ("alice.example") ("io.cozy.foos") ("foo-one")).count 1 = 1 ∧
     (publish stW ("alice.example") EventKind.updated docFoo none).queue 1 =
       stW.queue 1 ++ [mkDelivered (mkEvent EventKind.updated docFoo none)]) :=
  ⟨by decide, by decide, rfl, rfl,
   no_duplicate_delivery stW ("alice.example") ("io.cozy.foos") ("foo-one") 1
     EventKind.updated docFoo none (by decide) (by decide) rfl rfl⟩

/-- C3: for distinct tenants, a subscriber whose registry entries are all
scoped to the second tenant never appears in any matches lookup on the
first tenant, and a publish on the first tenant leaves its outbound queue
unchanged, whatever the doctype and document id. -/
theorem tenant_isolation (st : HubState) (T1 T2 : String) (s : Nat)
    (k : EventKind) (d : Doc) (old : Option Doc)
    (hne : T1 ≠ T2)
    (hscope : ∀ e ∈ st.registry, e.sub = s → e.tenant = T2) :
    (∀ D i, s ∉ matchesList st.registry T1 D i) ∧
    (publish st T1 k d old).queue s = st.queue s := by
  have hnot : ∀ D i, s ∉ matchesList st.registry T1 D i := by
    intro D i hm
    rcases mem_matchesList.mp hm with ⟨e, heR, hsub, ht, _, _⟩
    have h2 := hscope e heR hsub
    rw [ht] at h2
    exact hne h2
  exact ⟨hnot, publish_queue_not_mem (hnot _ _)⟩

theorem tenant_isolation_witness :
    ("alice.example" : String) ≠ "bob.example" ∧
    (∀ e ∈ stW.registry, e.sub = 2 → e.tenant = "bob.example") ∧
    ((∀ D i, 2 ∉ matchesList stW.registry ("alice.example") D i) ∧
     (publish stW ("alice.example") EventKind.updated docFoo none).queue 2 =
       stW.queue 2) :=
  ⟨by decide, by decide,
   tenant_isolation stW ("alice.example") ("bob.example") 2 EventKind.updated
     docFoo none (by decide) (by decide)⟩

/-- C4: per-subscriber FIFO — if two events are published in order and both
match the subscriber, the dispatch loop hands them to the transport with
the first published event before the second. -/
theorem fifo_per_subscriber (st : HubState) (t : String) (s : Nat)
    (k1 k2 : EventKind) (d1 d2 : Doc) (o1 o2 : Option Doc)
    (h1 : s ∈ matchesList st.registry t d1.doctype d1.docID)
    (h2 : s ∈ matchesList st.registry t d2.doctype d2.docID) :
    drain ((publish (publish st t k1 d1 o1) t k2 d2 o2).queue s) =
      drain (st.queue s) ++
        [mkDelivered (mkEvent k1 d1 o1), mkDelivered (mkEvent k2 d2 o2)] := by
  have h2a : s ∈ matchesList (publish st t k1 d1 o1).registry t d2.doctype d2.docID := by
    rw [publish_registry]; exact h2
  rw [drain_eq, drain_eq, publish_queue_mem h2a, publish_queue_mem h1]
  simp

theorem fifo_per_subscriber_witness :
    1 ∈ matchesList stW.registry ("alice.example") docFoo.doctype docFoo.docID ∧
    1 ∈ matchesList stW.registry ("alice.example") docFooTwo.doctype docFooTwo.docID ∧
    drain ((publish (publish stW ("alice.example") EventKind.updated docFoo none)
        ("alice.example") EventKind.deleted docFooTwo none).queue 1) =
      drain (stW.queue 1) ++
        [mkDelivered (mkEvent EventKind.updated docFoo none),
         mkDelivered (mkEvent EventKind.deleted docFooTwo none)] :=
  ⟨by decide, by decide,
   fifo_per_subscriber stW ("alice.example") 1 EventKind.updated
     EventKind.deleted docFoo docFooTwo none none (by decide) (by decide)⟩

theorem mem_addTopic_self (ts : List (String × Option String)) (D : String)
    (oid : Option String) : (D, oid) ∈ addTopic ts D oid := by
  unfold addTopic
  by_cases h : (D, oid) ∈ ts
  · rw [if_pos h]; exact h
  · rw [if_neg h]; exact List.mem_cons_self _ _

theorem unsubscribe_idem (R : Registry) (t : String) (s : Nat) (D : String)
    (oid : Option String) :
    unsubscribe (unsubscribe R t s D oid) t s D oid =
      unsubscribe R t s D oid := by
  apply List.filter_eq_self.mpr
  intro e he
  rcases mem_unsubscribe.mp he with ⟨_, hne⟩
  simpa using hne

theorem unsubscribe_not_mem_eq {R : Registry} {t : String} {s : Nat}
    {D : String} {oid : Option String}
    (h : Subscription.mk t s D oid ∉ R) :
    unsubscribe R t s D oid = R := by
  apply List.filter_eq_self.mpr
  intro e he
  simp only [ne_eq, decide_not, Bool.not_eq_false', decide_eq_false_iff_not,
    Bool.not_eq_true', decide_eq_true_eq]
  intro heq
  exact h (heq ▸ he)

/-- Test fixture: the permission set of the reference scenario — may read
foos, bars and bazs, may write bazs. -/
def permsW : PermSet :=
  ⟨["io.cozy.foos", "io.cozy.bars", "io.cozy.bazs"], ["io.cozy.bazs"]⟩

/-- Test fixture: the permission collaborator — one valid credential
resolving to the first tenant and `permsW`, anything else failing. -/
def resolveW : String → Option (String × PermSet) :=
  fun c => if c = "tok" then some (("alice.example"), permsW) else none

/-- Test fixture: a freshly connected, unauthenticated session. -/
def sessU : Session :=
  ⟨1, ConnState.unauthenticated, []⟩

/-- Test fixture: an authenticated session holding the specific topic
(bars, bar-one). -/
def sessA : Session :=
  ⟨1, ConnState.authenticated ("alice.example") permsW,
   [(("io.cozy.bars"), some ("bar-one"))]⟩

/-- C5: while a connection is Unauthenticated, a SUBSCRIBE message yields
exactly the 405 method-not-allowed error naming SUBSCRIBE — not a 401 —
and the session is unchanged, still open in the Unauthenticated state. -/
theorem unauthenticated_subscribe_rejected
    (resolve : String → Option (String × PermSet)) (R : Registry)
    (sess : Session) (D : String) (oid : Option String)
    (h : sess.conn = ConnState.unauthenticated) :
    handleMessage resolve R sess (Message.sub D oid) =
      (R, sess, [OutMsg.err ⟨"405 Method Not Allowed", "method not allowed",
        "The SUBSCRIBE method is not supported"⟩]) ∧
    (handleMessage resolve R sess (Message.sub D oid)).2.1.conn =
      ConnState.unauthenticated := by
  obtain ⟨sid, conn, topics⟩ := sess
  cases h
  exact ⟨rfl, rfl⟩

theorem unauthenticated_subscribe_rejected_witness :
    sessU.conn = ConnState.unauthenticated ∧
    (handleMessage resolveW regW sessU (Message.sub ("io.cozy.foos") none) =
      (regW, sessU, [OutMsg.err ⟨"405 Method Not Allowed", "method not allowed",
        "The SUBSCRIBE method is not supported"⟩]) ∧
     (handleMessage resolveW regW sessU (Message.sub ("io.cozy.foos") none)).2.1.conn =
      ConnState.unauthenticated) :=
  ⟨rfl, unauthenticated_subscribe_rejected resolveW regW sessU ("io.cozy.foos")
    none rfl⟩

/-- C6: the AUTH message resolves the credential through the external
permission collaborator; on success the session transitions to
Authenticated recording the resolved tenant and permission set with no
error; on failure the session stays Unauthenticated and the client gets
exactly the 401 authentication-failure error. -/
theorem auth_resolution (resolve : String → Option (String × PermSet))
    (R : Registry) (sess : Session) (cred : String)
    (h : sess.conn = ConnState.unauthenticated) :
    (∀ tenant perms, resolve cred = some (tenant, perms) →
      handleMessage resolve R sess (Message.auth cred) =
        (R, { sess with conn := ConnState.authenticated tenant perms }, [])) ∧
    (resolve cred = none →
      handleMessage resolve R sess (Message.auth cred) =
        (R, sess, [OutMsg.err ⟨"401 Unauthorized", "unauthorized",
          "The authentication has failed"⟩])) := by
  obtain ⟨sid, conn, topics⟩ := sess
  cases h
  constructor
  · intro tenant perms hres
    simp [handleMessage, hres]
  · intro hres
    simp [handleMessage, hres, unauthorizedErr]

theorem auth_resolution_witness :
    sessU.conn = ConnState.unauthenticated ∧
    ((∀ tenant perms, resolveW ("badtok") = some (tenant, perms) →
        handleMessage resolveW regW sessU (Message.auth ("badtok")) =
          (regW, { sessU with conn := ConnState.authenticated tenant perms }, [])) ∧
     (resolveW ("badtok") = none →
        handleMessage resolveW regW sessU (Message.auth ("badtok")) =
          (regW, sessU, [OutMsg.err ⟨"401 Unauthorized", "unauthorized",
            "The authentication has failed"⟩]))) :=
  ⟨rfl, auth_resolution resolveW regW sessU ("badtok") rfl⟩

/-- C7: for an Authenticated session, SUBSCRIBE for a doctype the resolved
permission set may not read yields exactly the 403 forbidden error naming
the doctype and leaves the registry untouched; when reading is allowed the
subscriber is registered in the Topic Registry and the topic is added to
its own topic set, with no error. -/
theorem subscribe_permission_check
    (resolve : String → Option (String × PermSet)) (R : Registry)
    (sess : Session) (tenant : String) (perms : PermSet) (D : String)
    (oid : Option String)
    (h : sess.conn = ConnState.authenticated tenant perms) :
    (perms.mayRead D = false →
      handleMessage resolve R sess (Message.sub D oid) =
        (R, sess, [OutMsg.err ⟨"403 Forbidden", "forbidden",
          "The application can" ++ apos ++ "t subscribe to " ++ D⟩])) ∧
    (perms.mayRead D = true →
      handleMessage resolve R sess (Message.sub D oid) =
        (subscribe R tenant sess.sid D oid,
         { sess with topics := addTopic sess.topics D oid }, []) ∧
      Subscription.mk tenant sess.sid D oid ∈
        (handleMessage resolve R sess (Message.sub D oid)).1 ∧
      (D, oid) ∈ addTopic sess.topics D oid) := by
  obtain ⟨sid, conn, topics⟩ := sess
  cases h
  constructor
  · intro hno
    simp [handleMessage, hno, forbiddenErr]
  · intro hyes
    refine ⟨by simp [handleMessage, hyes], ?_, mem_addTopic_self _ _ _⟩
    have hred : (handleMessage resolve R ⟨sid, ConnState.authenticated tenant perms, topics⟩
        (Message.sub D oid)).1 = subscribe R tenant sid D oid := by
      simp [handleMessage, hyes]
    rw [hred]
    exact mem_subscribe_self _ _ _ _ _

theorem subscribe_permission_check_witness :
    sessA.conn = ConnState.authenticated ("alice.example") permsW ∧
    ((permsW.mayRead ("io.cozy.contacts") = false →
        handleMessage resolveW regW sessA (Message.sub ("io.cozy.contacts") none) =
          (regW, sessA, [OutMsg.err ⟨"403 Forbidden", "forbidden",
            "The application can" ++ apos ++ "t subscribe to " ++ "io.cozy.contacts"⟩])) ∧
     (permsW.mayRead ("io.cozy.contacts") = true →
        handleMessage resolveW regW sessA (Message.sub ("io.cozy.contacts") none) =
          (subscribe regW ("alice.example") sessA.sid ("io.cozy.contacts") none,
           { sessA with topics := addTopic sessA.topics ("io.cozy.contacts") none }, []) ∧
        Subscription.mk ("alice.example") sessA.sid ("io.cozy.contacts") none ∈
          (handleMessage resolveW regW sessA (Message.sub ("io.cozy.contacts") none)).1 ∧
        (("io.cozy.contacts"), (none : Option String)) ∈
          addTopic sessA.topics ("io.cozy.contacts") none)) :=
  ⟨rfl, subscribe_permission_check resolveW regW sessA ("alice.example") permsW
    ("io.cozy.contacts") none rfl⟩

/-- C8: for an Authenticated session, UNSUBSCRIBE of (D, i) succeeds
unconditionally with no error message; removal is idempotent and a no-op
on a non-member; afterwards, if no wildcard for D is held, a publish
matching (D, i) enqueues nothing for that subscriber, while every other
subscription it holds still matches exactly as before. -/
theorem unsubscribe_effects
    (resolve : String → Option (String × PermSet)) (R : Registry)
    (sess : Session) (tenant : String) (perms : PermSet) (D i : String)
    (h : sess.conn = ConnState.authenticated tenant perms) :
    handleMessage resolve R sess (Message.unsub D (some i)) =
      (unsubscribe R tenant sess.sid D (some i),
       { sess with topics := removeTopic sess.topics D (some i) }, []) ∧
    unsubscribe (unsubscribe R tenant sess.sid D (some i)) tenant sess.sid D (some i) =
      unsubscribe R tenant sess.sid D (some i) ∧
    (Subscription.mk tenant sess.sid D (some i) ∉ R →
      unsubscribe R tenant sess.sid D (some i) = R) ∧
    (Subscription.mk tenant sess.sid D none ∉ R →
      ∀ (q : Nat → List Delivered) (k : EventKind) (d : Doc) (old : Option Doc),
        d.doctype = D → d.docID = i →
        (publish ⟨unsubscribe R tenant sess.sid D (some i), q⟩ tenant k d old).queue sess.sid =
          q sess.sid) ∧
    (∀ e ∈ R, e.sub = sess.sid → e ≠ Subscription.mk tenant sess.sid D (some i) →
      ∀ x, e.id = none ∨ e.id = some x →
        sess.sid ∈ matchesList (unsubscribe R tenant sess.sid D (some i))
          e.tenant e.doctype x) := by
  obtain ⟨sid, conn, topics⟩ := sess
  cases h
  refine ⟨rfl, unsubscribe_idem _ _ _ _ _, unsubscribe_not_mem_eq, ?_, ?_⟩
  · intro hwild q k d old hdt hdi
    subst hdt; subst hdi
    apply publish_queue_not_mem
    intro hm
    rcases mem_matchesList.mp hm with ⟨e, heU, hsub, ht, hdt2, hid⟩
    rcases mem_unsubscribe.mp heU with ⟨heR, hne⟩
    obtain ⟨et, es, ed, ei⟩ := e
    dsimp only at hsub ht hdt2 hid
    subst hsub; subst ht; subst hdt2
    rcases hid with h0 | h1
    · subst h0; exact hwild heR
    · subst h1; exact hne rfl
  · intro e heR hsub hne x hid
    exact mem_matchesList.mpr ⟨e, mem_unsubscribe.mpr ⟨heR, hne⟩, hsub, rfl, rfl, hid⟩

theorem unsubscribe_effects_witness :
    sessA.conn = ConnState.authenticated ("alice.example") permsW ∧
    (handleMessage resolveW regW sessA (Message.unsub ("io.cozy.bars") (some ("bar-one"))) =
      (unsubscribe regW ("alice.example") sessA.sid ("io.cozy.bars") (some ("bar-one")),
       { sessA with topics := removeTopic sessA.topics ("io.cozy.bars") (some ("bar-one")) }, []) ∧
     unsubscribe (unsubscribe regW ("alice.example") sessA.sid ("io.cozy.bars") (some ("bar-one")))
         ("alice.example") sessA.sid ("io.cozy.bars") (some ("bar-one")) =
       unsubscribe regW ("alice.example") sessA.sid ("io.cozy.bars") (some ("bar-one")) ∧
     (Subscription.mk ("alice.example") sessA.sid ("io.cozy.bars") (some ("bar-one")) ∉ regW →
       unsubscribe regW ("alice.example") sessA.sid ("io.cozy.bars") (some ("bar-one")) = regW) ∧
     (Subscription.mk ("alice.example") sessA.sid ("io.cozy.bars") none ∉ regW →
       ∀ (q : Nat → List Delivered) (k : EventKind) (d : Doc) (old : Option Doc),
         d.doctype = "io.cozy.bars" → d.docID = "bar-one" →
         (publish ⟨unsubscribe regW ("alice.example") sessA.sid ("io.cozy.bars") (some ("bar-one")), q⟩
             ("alice.example") k d old).queue sessA.sid = q sessA.sid) ∧
     (∀ e ∈ regW, e.sub = sessA.sid →
       e ≠ Subscription.mk ("alice.example") sessA.sid ("io.cozy.bars") (some ("bar-one")) →
       ∀ x, e.id = none ∨ e.id = some x →
         sessA.sid ∈ matchesList
           (unsubscribe regW ("alice.example") sessA.sid ("io.cozy.bars") (some ("bar-one")))
           e.tenant e.doctype x)) :=
  ⟨rfl, unsubscribe_effects resolveW regW sessA ("alice.example") permsW
    ("io.cozy.bars") ("bar-one") rfl⟩

/-- Test fixture: hub state with a subscriber of topic (bazs, baz-one)
and empty queues, for the notify scenario. -/
def stN : HubState :=
  ⟨[⟨"alice.example", 3, "io.cozy.bazs", some ("baz-one")⟩], fun _ => []⟩

/-- C9: a POST on the notify side-channel with a bearer credential that
resolves and grants the write-like permission answers 204 No Content and
publishes exactly one NOTIFIED event to every subscriber of the
(doctype, id) topic, the delivered payload having that type and id and the
caller-supplied body carried verbatim as the doc, with no registry
change. -/
theorem notify_publishes_notified
    (resolve : String → Option (String × PermSet)) (st : HubState)
    (bearer doctype docID body tenant : String) (perms : PermSet) (s : Nat)
    (hres : resolve bearer = some (tenant, perms))
    (hw : perms.mayWrite doctype = true)
    (hsub : Subscription.mk tenant s doctype (some docID) ∈ st.registry) :
    (notify resolve st bearer doctype docID body).1 = 204 ∧
    (notify resolve st bearer doctype docID body).2.registry = st.registry ∧
    (notify resolve st bearer doctype docID body).2.queue s =
      st.queue s ++ [Delivered.mk ("NOTIFIED") doctype docID body] := by
  have hm : s ∈ matchesList st.registry tenant doctype docID :=
    mem_matchesList.mpr
      ⟨Subscription.mk tenant s doctype (some docID), hsub, rfl, rfl, rfl,
       Or.inr rfl⟩
  have hn : notify resolve st bearer doctype docID body =
      (204, publish st tenant EventKind.notified ⟨docID, doctype, body⟩ none) := by
    unfold notify
    rw [hres]
    simp [hw]
  rw [hn]
  refine ⟨rfl, rfl, ?_⟩
  exact @publish_queue_mem st tenant EventKind.notified ⟨docID, doctype, body⟩ none s hm

theorem notify_publishes_notified_witness :
    resolveW ("tok") = some (("alice.example"), permsW) ∧
    permsW.mayWrite ("io.cozy.bazs") = true ∧
    Subscription.mk ("alice.example") 3 ("io.cozy.bazs") (some ("baz-one")) ∈ stN.registry ∧
    ((notify resolveW stN ("tok") ("io.cozy.bazs") ("baz-one") ("bodyjson")).1 = 204 ∧
     (notify resolveW stN ("tok") ("io.cozy.bazs") ("baz-one") ("bodyjson")).2.registry =
       stN.registry ∧
     (notify resolveW stN ("tok") ("io.cozy.bazs") ("baz-one") ("bodyjson")).2.queue 3 =
       stN.queue 3 ++ [Delivered.mk ("NOTIFIED") ("io.cozy.bazs") ("baz-one") ("bodyjson")]) :=
  ⟨rfl, rfl, by decide,
   notify_publishes_notified resolveW stN ("tok") ("io.cozy.bazs") ("baz-one")
     ("bodyjson") ("alice.example") permsW 3 rfl rfl (by decide)⟩

theorem runMessages_subs_silent
    (resolve : String → Option (String × PermSet)) (tenant : String)
    (perms : PermSet) :
    ∀ (subs : List (String × Option String)),
      (∀ p ∈ subs, perms.mayRead p.1 = true) →
      ∀ (R : Registry) (sess : Session),
        sess.conn = ConnState.authenticated tenant perms →
        (runMessages resolve R sess
          (subs.map (fun p => Message.sub p.1 p.2))).2.2 = [] := by
  intro subs
  induction subs with
  | nil => intro _ R sess _; rfl
  | cons p ps ih =>
    intro hperm R sess hconn
    obtain ⟨sid, conn, topics⟩ := sess
    cases hconn
    have hp := hperm p (List.mem_cons_self _ _)
    have hstep : handleMessage resolve R
        ⟨sid, ConnState.authenticated tenant perms, topics⟩ (Message.sub p.1 p.2) =
        (subscribe R tenant sid p.1 p.2,
         ⟨sid, ConnState.authenticated tenant perms, addTopic topics p.1 p.2⟩, []) := by
      simp [handleMessage, hp]
    simp only [List.map_cons, runMessages, hstep, List.nil_append]
    exact ih (fun q hq => hperm q (List.mem_cons_of_mem _ hq)) _ _ rfl

/-- C10: successful control messages are silent — a run of a valid AUTH
followed by any number of permitted SUBSCRIBEs produces no server message
at all, so with initially empty queues the first thing the client receives
is the first matching published event. -/
theorem successful_control_messages_silent
    (resolve : String → Option (String × PermSet)) (cred tenant : String)
    (perms : PermSet) (R : Registry) (sid : Nat)
    (subs : List (String × Option String))
    (hres : resolve cred = some (tenant, perms))
    (hperm : ∀ p ∈ subs, perms.mayRead p.1 = true) :
    (runMessages resolve R ⟨sid, ConnState.unauthenticated, []⟩
      (Message.auth cred :: subs.map (fun p => Message.sub p.1 p.2))).2.2 = [] ∧
    (∀ (Rp : Registry) (t : String) (k : EventKind) (d : Doc) (old : Option Doc),
      sid ∈ matchesList Rp t d.doctype d.docID →
      (publish ⟨Rp, fun _ => []⟩ t k d old).queue sid =
        [mkDelivered (mkEvent k d old)]) := by
  constructor
  · have hstep : handleMessage resolve R ⟨sid, ConnState.unauthenticated, []⟩
        (Message.auth cred) =
        (R, ⟨sid, ConnState.authenticated tenant perms, []⟩, []) := by
      simp [handleMessage, hres]
    simp only [runMessages, hstep, List.nil_append]
    exact runMessages_subs_silent resolve tenant perms subs hperm R _ rfl
  · intro Rp t k d old hm
    have hq := @publish_queue_mem (HubState.mk Rp (fun _ => [])) t k d old sid hm
    simpa using hq

theorem successful_control_messages_silent_witness :
    resolveW ("tok") = some (("alice.example"), permsW) ∧
    (∀ p ∈ [(("io.cozy.foos"), (none : Option String)),
            (("io.cozy.bars"), some ("bar-one"))], permsW.mayRead p.1 = true) ∧
    ((runMessages resolveW regW ⟨1, ConnState.unauthenticated, []⟩
        (Message.auth ("tok") ::
          [(("io.cozy.foos"), (none : Option String)),
           (("io.cozy.bars"), some ("bar-one"))].map
            (fun p => Message.sub p.1 p.2))).2.2 = [] ∧
     (∀ (Rp : Registry) (t : String) (k : EventKind) (d : Doc) (old : Option Doc),
        1 ∈ matchesList Rp t d.doctype d.docID →
        (publish ⟨Rp, fun _ => []⟩ t k d old).queue 1 =
          [mkDelivered (mkEvent k d old)])) :=
  ⟨rfl, by decide,
   successful_control_messages_silent resolveW ("tok") ("alice.example") permsW
     regW 1 ([(("io.cozy.foos"), (none : Option String)),
              (("io.cozy.bars"), some ("bar-one"))]) rfl (by decide)⟩

end Realtime
